import Mathlib

/-!
Verification of the session-lifecycle and durable-message core of the
`agentgui` repository against its natural-language specification.

The development shallowly embeds the relevant source components:

* `StateManager` / `SessionStateStore` (file `state-manager.js`, the
  per-session finite state machine with watchdog, history, data bag,
  completion promise, and TTL cleanup);
* `DatabaseService` (file `database-service.ts`: `createMessage`,
  `validateIntegrity`);
* the idempotent `createMessage` of `database.js` (absent from the
  source tree; modelled from the specification, see `DBJS` below);
* `SyncService.handleSyncError` and the `conversationSyncMachine`
  retry delay (files `sync-service.ts`, `machines.ts`);
* `ACPConnection.sendPrompt` (file `acp-connection.js`).

All definitions are executable; machine timestamps are modelled as `Int`
(JavaScript `Date.now()` values), and JavaScript exceptions as explicit
error results.
-/

namespace AgentGui

/-! ## StateManager (state-manager.js) -/

/-- The nine session states of `StateManager.STATES`. -/
inductive SMState
  | pending
  | acquiring_acp
  | acp_acquired
  | sending_prompt
  | processing
  | completed
  | error
  | timeout
  | cancelled
deriving DecidableEq, Repr

/-- String form of each state, as in `StateManager.STATES`. -/
def SMState.str : SMState → String
  | .pending => "pending"
  | .acquiring_acp => "acquiring_acp"
  | .acp_acquired => "acp_acquired"
  | .sending_prompt => "sending_prompt"
  | .processing => "processing"
  | .completed => "completed"
  | .error => "error"
  | .timeout => "timeout"
  | .cancelled => "cancelled"

/-- `StateManager.VALID_TRANSITIONS`, transcribed row by row from the
source table.  Note that the `pending` row lists only `acquiring_acp`
and `cancelled`. -/
def validTransitions : SMState → List SMState
  | .pending => [.acquiring_acp, .cancelled]
  | .acquiring_acp => [.acp_acquired, .error, .timeout, .cancelled]
  | .acp_acquired => [.sending_prompt, .error, .timeout, .cancelled]
  | .sending_prompt => [.processing, .error, .timeout, .cancelled]
  | .processing => [.completed, .error, .timeout, .cancelled]
  | .completed => []
  | .error => []
  | .timeout => []
  | .cancelled => []

/-- `StateManager.isTerminal()`: membership in the four terminal states. -/
def SMState.isTerminal : SMState → Bool
  | .completed => true
  | .error => true
  | .timeout => true
  | .cancelled => true
  | _ => false

/-- One entry of `this.stateHistory`.  The seed entry written by the
constructor has no `details` field (`none`); entries written by
`transition` carry `details` (`some _`). -/
structure HistoryEntry where
  state : SMState
  timestamp : Int
  reason : String
  details : Option (List (String × String))
deriving DecidableEq, Repr

/-- The per-session data bag `this.data`, with the fields initialised by
the `StateManager` constructor. -/
structure SessionData where
  acpConnectionTime : Option Int := none
  promptSentTime : Option Int := none
  responseReceivedTime : Option Int := none
  fullText : String := ""
  blocks : List String := []
  error : Option String := none
  stackTrace : Option String := none
deriving DecidableEq, Repr

/-- A patch merged into the data bag by `Object.assign(this.data, data.data)`;
`none` in a field means the property is absent from the patch object. -/
structure DataPatch where
  acpConnectionTime : Option Int := none
  promptSentTime : Option Int := none
  responseReceivedTime : Option Int := none
  fullText : Option String := none
  blocks : Option (List String) := none
  error : Option String := none
  stackTrace : Option String := none
deriving DecidableEq, Repr

/-- `Object.assign(this.data, patch)`: a present patch field overwrites,
an absent one leaves the bag field unchanged. -/
def SessionData.assign (d : SessionData) (p : DataPatch) : SessionData :=
  { acpConnectionTime :=
      if p.acpConnectionTime.isSome then p.acpConnectionTime else d.acpConnectionTime
    promptSentTime :=
      if p.promptSentTime.isSome then p.promptSentTime else d.promptSentTime
    responseReceivedTime :=
      if p.responseReceivedTime.isSome then p.responseReceivedTime else d.responseReceivedTime
    fullText := p.fullText.getD d.fullText
    blocks := p.blocks.getD d.blocks
    error := if p.error.isSome then p.error else d.error
    stackTrace := if p.stackTrace.isSome then p.stackTrace else d.stackTrace }

/-- The mutable fields of a `StateManager` instance.  `settled` counts
how many times the completion promise has been resolved or rejected
(`promiseResolve` / `promiseReject` invocations); `timeoutArmed` tracks
whether the watchdog timer is still pending (`this.timeoutHandle`). -/
structure StateManagerS where
  sessionId : String
  conversationId : String
  messageId : String
  timeoutMs : Int
  state : SMState
  previousState : Option SMState
  stateHistory : List HistoryEntry
  data : SessionData
  settled : Nat
  timeoutArmed : Bool
deriving DecidableEq, Repr

/-- The `StateManager` constructor: state `pending`, a single seeded
history entry, default data bag, watchdog armed, promise unsettled. -/
def initSM (sessionId conversationId messageId : String) (t0 : Int)
    (timeoutMs : Int := 120000) : StateManagerS :=
  { sessionId := sessionId
    conversationId := conversationId
    messageId := messageId
    timeoutMs := timeoutMs
    state := .pending
    previousState := none
    stateHistory := [⟨.pending, t0, "initialized", none⟩]
    data := {}
    settled := 0
    timeoutArmed := true }

/-- The argument record of one `transition(newState, data)` call:
`now` is the `Date.now()` observed during the call, `reason`/`details`
are `data.reason`/`data.details`, `patch` is `data.data`. -/
structure TCall where
  now : Int
  target : SMState
  reason : Option String := none
  details : List (String × String) := []
  patch : DataPatch := {}
deriving DecidableEq, Repr

/-- The error message thrown on an invalid transition. -/
def invalidMsg (s t : SMState) : String :=
  "Invalid state transition: " ++ s.str ++ " -> " ++ t.str ++ ". Valid: [" ++
    String.intercalate ", " ((validTransitions s).map SMState.str) ++ "]"

/-- `StateManager.transition(newState, data)`.  Returns the instance
after the call together with `some message` when the call threw
(in which case the instance is returned unchanged: the throw happens
before any mutation).  On success:

* `previousState`/`state` are updated;
* a history entry is appended;
* `data.data` is merged into the bag;
* a terminal target runs `completeSuccess`/`completeError`, which
  cancels the watchdog, writes `error`/`stackTrace` into the bag
  (`completeSuccess` re-merges the patch), and settles the promise. -/
def transitionRun (sm : StateManagerS) (c : TCall) :
    StateManagerS × Option String :=
  if c.target ∈ validTransitions sm.state then
    let sm1 : StateManagerS :=
      { sm with
        previousState := some sm.state
        state := c.target
        stateHistory := sm.stateHistory ++
          [⟨c.target, c.now, c.reason.getD "manual transition", some c.details⟩]
        data := sm.data.assign c.patch }
    let sm2 : StateManagerS :=
      match c.target with
      | .completed =>
          { sm1 with
            timeoutArmed := false
            data := sm1.data.assign c.patch
            settled := sm1.settled + 1 }
      | .error =>
          { sm1 with
            timeoutArmed := false
            data := { sm1.data with
                        error := c.patch.error
                        stackTrace := c.patch.stackTrace }
            settled := sm1.settled + 1 }
      | .timeout =>
          { sm1 with
            timeoutArmed := false
            data := { sm1.data with
                        error := some "Operation timeout"
                        stackTrace := c.patch.stackTrace }
            settled := sm1.settled + 1 }
      | .cancelled =>
          { sm1 with
            timeoutArmed := false
            data := { sm1.data with
                        error := some "Operation cancelled"
                        stackTrace := none }
            settled := sm1.settled + 1 }
      | _ => sm1
    (sm2, none)
  else
    (sm, some (invalidMsg sm.state c.target))

/-- The watchdog callback armed by `startTimeout()`: if the state is not
one of the four terminal states it calls
`transition(TIMEOUT, { reason: 'timeout watchdog fired', data: { error: 'Operation exceeded timeout', ... } })`;
otherwise the fire does nothing. -/
def watchdogFire (sm : StateManagerS) (now : Int) :
    StateManagerS × Option String :=
  if sm.state.isTerminal then (sm, none)
  else
    transitionRun sm
      { now := now
        target := .timeout
        reason := some "timeout watchdog fired"
        patch := { error := some "Operation exceeded timeout" } }

/-! ## SessionStateStore (state-manager.js) -/

/-- Timestamp of the last entry of `this.stateHistory`
(`stateHistory[stateHistory.length - 1].timestamp`). -/
def lastTransitionTs (sm : StateManagerS) : Option Int :=
  sm.stateHistory.getLast?.map (·.timestamp)

/-- The removal condition of `SessionStateStore.cleanup(ttl)`:
the manager is terminal and `now - last.timestamp > ttl`.  A manager
with an empty history is never removed (unreachable in the source:
the constructor always seeds one entry). -/
def shouldRemove (now ttl : Int) (sm : StateManagerS) : Bool :=
  sm.state.isTerminal &&
    (match lastTransitionTs sm with
     | some t => decide (now - t > ttl)
     | none => false)

/-- `SessionStateStore.cleanup(ttl)` on the registry map, with
`ttl` defaulting to 3600000 ms in the source: collects the sessions
satisfying `shouldRemove` and deletes them, keeping every other entry
untouched. -/
def cleanup (reg : List (String × StateManagerS)) (now ttl : Int) :
    List (String × StateManagerS) :=
  reg.filter (fun p => ! shouldRemove now ttl p.2)

/-! ## DatabaseService (database-service.ts) -/

/-- A row of the `conversations` table, fields as selected by
`DatabaseService` (`types.ts` `Conversation`). -/
structure DBConversation where
  id : String
  agentId : String
  title : Option String
  created_at : Int
  updated_at : Int
  status : String
deriving DecidableEq, Repr

/-- A row of the `messages` table (`types.ts` `Message`). -/
structure DBMessage where
  id : String
  conversationId : String
  role : String
  content : String
  created_at : Int
deriving DecidableEq, Repr

/-- A row of the `sessions` table (`types.ts` `Session`, the fields
relevant here).  `DatabaseService` itself defines no session
operations; the rows exist in the persisted schema. -/
structure DBSession where
  id : String
  conversationId : String
  status : String
deriving DecidableEq, Repr

/-- The visible database state: the three tables, rows in insertion
order. -/
structure DB where
  conversations : List DBConversation
  messages : List DBMessage
  sessions : List DBSession
deriving DecidableEq, Repr

/-- `DatabaseService.getConversation(id)`:
`SELECT ... WHERE id = ? AND status != 'deleted'`. -/
def getConversation (db : DB) (id : String) : Option DBConversation :=
  db.conversations.find? (fun c => c.id == id && c.status != "deleted")

/-- The `MessageCreateInput` role check (`types.ts` `MessageRole`;
the zod schema `MessageCreateInputSchema` itself is not in the source
tree, its role enumeration is declared in `types.ts`). -/
def validRole (r : String) : Bool :=
  r == "user" || r == "assistant" || r == "system"

/-- `DatabaseService.createMessage(conversationId, input)`:
validate the input, require the conversation to exist and not be
deleted (`NOT_FOUND`), then insert a row with
`created_at = Date.now()` taken verbatim — the source applies no
monotonic bump.  `now` is the `Date.now()` value observed by the call
and `newId` the generated `msg-...` identifier. -/
def createMessage (db : DB) (now : Int) (newId : String)
    (conversationId role content : String) :
    Except String (DB × DBMessage) :=
  if ! validRole role then .error "VALIDATION_ERROR"
  else
    match getConversation db conversationId with
    | none => .error "NOT_FOUND"
    | some _ =>
        let m : DBMessage :=
          { id := newId
            conversationId := conversationId
            role := role
            content := content
            created_at := now }
        .ok ({ db with messages := db.messages ++ [m] }, m)

/-- Number of orphaned messages found by `validateIntegrity`:
`messages WHERE conversationId NOT IN (SELECT id FROM conversations WHERE status != 'deleted')`. -/
def orphanedMessageCount (db : DB) : Nat :=
  (db.messages.filter (fun m =>
    ! db.conversations.any (fun c =>
        c.id == m.conversationId && c.status != "deleted"))).length

/-- Number of duplicated conversation ids found by `validateIntegrity`:
`SELECT id FROM conversations GROUP BY id HAVING COUNT(*) > 1`. -/
def duplicateConversationIdCount (db : DB) : Nat :=
  ((db.conversations.map (·.id)).dedup.filter (fun i =>
    (db.conversations.filter (fun c => c.id == i)).length > 1)).length

/-- Sessions whose `conversationId` references no conversation row at
all — dangling references.  `validateIntegrity` runs no such query;
this definition only states what the claim asks about. -/
def danglingSessionCount (db : DB) : Nat :=
  (db.sessions.filter (fun s =>
    ! db.conversations.any (fun c => c.id == s.conversationId))).length

/-- The record returned by `DatabaseService.validateIntegrity()`. -/
structure IntegrityResult where
  valid : Bool
  errors : List String
deriving DecidableEq, Repr

/-- `DatabaseService.validateIntegrity()`: reports the orphaned-message
count and the duplicate-conversation-id count, and returns
`valid = errors.length === 0`.  No query touches the `sessions`
table. -/
def validateIntegrity (db : DB) : IntegrityResult :=
  let errors :=
    (if orphanedMessageCount db > 0 then
      ["Found " ++ toString (orphanedMessageCount db) ++ " orphaned messages"]
     else []) ++
    (if duplicateConversationIdCount db > 0 then
      ["Found " ++ toString (duplicateConversationIdCount db) ++
        " duplicate conversation IDs"]
     else [])
  { valid := errors.isEmpty, errors := errors }

/-! ## database.js idempotent message creation (modelled from the spec)

The JSON-file store `database.js` that implements the idempotent
append path is not part of the source tree; only its documentation
(`CHANGES_SUMMARY.md`, `readme.md`, `QUICKSTART.md`) and its callers
are.  The definitions in this namespace are therefore modelled from
the specification. -/

namespace DBJS

/-- An entry of the `idempotencyKeys` table: the cached `Message`
value, the write time, and the 24-hour TTL. -/
structure IdemRecord where
  value : AgentGui.DBMessage
  created_at : Int
  ttl : Int
deriving DecidableEq, Repr

/-- The 24-hour idempotency TTL, in milliseconds. -/
def idemTTL : Int := 86400000

/-- The store state seen by the idempotent append: the tables plus the
idempotency cache and the append-only event log (an event here is
`(type, conversationId, messageId, created_at)`). -/
structure JStore where
  db : AgentGui.DB
  idem : List (String × IdemRecord)
  events : List (String × String × String × Int)
deriving DecidableEq, Repr

/-- Modelled from the spec: `database.js getIdempotencyKey(key)` —
look up the record and treat it as absent when
`now - created_at > ttl`. -/
def getIdempotencyKey (st : JStore) (now : Int) (key : String) :
    Option AgentGui.DBMessage :=
  match st.idem.find? (fun p => p.1 == key) with
  | some p => if now - p.2.created_at > p.2.ttl then none else some p.2.value
  | none => none

/-- Modelled from the spec: `database.js createMessage(conversationId,
role, content, idempotencyKey)` — the `appendMessage` algorithm of
spec section 4.1.  With a non-empty key whose record is cached and
unexpired, the cached `Message` is returned verbatim and the store is
untouched.  Otherwise the conversation must exist and not be deleted
(`NOT_FOUND`), one message row is inserted with `created_at = now`,
one `message.created` event is appended, and (when a non-empty key was
supplied) the idempotency record is written. -/
def createMessage (st : JStore) (now : Int) (newId : String)
    (conversationId role content : String) (idempotencyKey : Option String) :
    Except String (JStore × AgentGui.DBMessage) :=
  let k := idempotencyKey.getD ""
  match (if k != "" then getIdempotencyKey st now k else none) with
  | some cached => .ok (st, cached)
  | none =>
      match AgentGui.getConversation st.db conversationId with
      | none => .error "NOT_FOUND"
      | some _ =>
          let m : AgentGui.DBMessage :=
            { id := newId
              conversationId := conversationId
              role := role
              content := content
              created_at := now }
          let st1 : JStore :=
            { db := { st.db with messages := st.db.messages ++ [m] }
              events := st.events ++ [("message.created", conversationId, newId, now)]
              idem :=
                if k != "" then (k, ⟨m, now, idemTTL⟩) :: st.idem else st.idem }
          .ok (st1, m)

/-- Run a sequence of `createMessage` calls sharing conversation, role,
content and idempotency key; each list element supplies the call's
`Date.now()` value and generated id.  A call that throws leaves the
store unchanged.  Returns the final store and the per-call results. -/
def createSeq (st : JStore) (conversationId role content : String)
    (idempotencyKey : Option String) :
    List (Int × String) → JStore × List (Except String AgentGui.DBMessage)
  | [] => (st, [])
  | (t, id) :: rest =>
      match createMessage st t id conversationId role content idempotencyKey with
      | .ok (st1, m) =>
          let out := createSeq st1 conversationId role content idempotencyKey rest
          (out.1, .ok m :: out.2)
      | .error e =>
          let out := createSeq st conversationId role content idempotencyKey rest
          (out.1, .error e :: out.2)

end DBJS

/-! ## Retry delays (machines.ts, sync-service.ts) and session statuses -/

/-- The single `after` delay key of the `error` state of
`conversationSyncMachine`: the source writes
`Math.min(1000 * Math.pow(2, 0), 16000)`, evaluated once when the
machine is defined — the exponent is the literal `0`, not the retry
count. -/
def machineErrorRetryDelay : Int := min (1000 * 2 ^ (0 : Nat)) 16000

/-- The delay printed by the machine's `logRetry` action:
`Math.min(1000 * Math.pow(2, context.retryCount), 16000)`. -/
def logRetryDelay (retryCount : Nat) : Int :=
  min (1000 * 2 ^ retryCount) 16000

/-- `SyncService.handleSyncError` delay after the `retryAttempts`-th
failure (the counter has already been incremented):
`Math.min(retryDelay * Math.pow(2, retryAttempts - 1), maxRetryDelay)`,
with source defaults `retryDelay = 1000` and `maxRetryDelay = 30000`. -/
def handleSyncErrorDelay (retryDelay maxRetryDelay : Int)
    (retryAttempts : Nat) : Int :=
  min (retryDelay * 2 ^ (retryAttempts - 1)) maxRetryDelay

/-- The delay the claim asserts before attempt `n + 1`:
`min(1s * 2^(n-1), 16s)`.  Stated from the specification's words, to
be compared with the definitions taken from the source. -/
def specRetryDelay (n : Nat) : Int := min (1000 * 2 ^ (n - 1)) 16000

/-- `types.ts` `SessionStatus`: the exact union
`'pending' | 'processing' | 'completed' | 'error' | 'cancelled'`. -/
inductive SessionStatus
  | pending
  | processing
  | completed
  | error
  | cancelled
deriving DecidableEq, Repr

/-- The string carried by each `SessionStatus` alternative. -/
def SessionStatus.str : SessionStatus → String
  | .pending => "pending"
  | .processing => "processing"
  | .completed => "completed"
  | .error => "error"
  | .cancelled => "cancelled"

/-- All alternatives of `SessionStatus`. -/
def allSessionStatuses : List SessionStatus :=
  [.pending, .processing, .completed, .error, .cancelled]

/-! ## ACPConnection.sendPrompt (acp-connection.js) -/

/-- One SDK message from `session.sdkMessages`: its `type` tag and its
optional `result` payload (already coerced to a string; `none` models
an absent or undefined `result`, and JavaScript treats the empty
string as falsy exactly like our `some ""` branch does). -/
structure SdkMessage where
  type : String
  result : Option String := none
deriving DecidableEq, Repr

/-- The truthy string carried by an SDK message's `result` field, or
`""` when the field is absent or empty. -/
def SdkMessage.resultText (m : SdkMessage) : String :=
  match m.result with
  | some r => r
  | none => ""

/-- The observable behaviour of `ACPConnection.sendPrompt`: walk
`session.sdkMessages`; on the first message with `type === 'result'`,
if `message.result` is truthy set `fullResponse` and invoke
`this.onUpdate` once (when a callback is registered) with a single
chunk carrying the whole response, then return.  Yields the list of
chunks passed to `onUpdate` and the returned `content`. -/
def sendPromptChunks (hasCallback : Bool) :
    List SdkMessage → List String × String
  | [] => ([], "")
  | m :: rest =>
      if m.type == "result" then
        let fullResponse := m.resultText
        let chunks :=
          if hasCallback && fullResponse != "" then [fullResponse] else []
        (chunks, fullResponse)
      else sendPromptChunks hasCallback rest

/-! ## Action sequences on a StateManager -/

/-- One event hitting a `StateManager`: either an explicit `transition`
call or a watchdog fire. -/
inductive SMAction
  | call (c : TCall)
  | watchdog (now : Int)
deriving DecidableEq, Repr

/-- Apply one action; a thrown invalid-transition error leaves the
instance as it was. -/
def stepAction (sm : StateManagerS) : SMAction → StateManagerS
  | .call c => (transitionRun sm c).1
  | .watchdog t => (watchdogFire sm t).1

/-- Apply a whole sequence of actions. -/
def runActions (sm : StateManagerS) (acts : List SMAction) : StateManagerS :=
  acts.foldl stepAction sm

/-- The settle-count invariant: the completion promise has been settled
exactly once when the FSM is terminal and never before. -/
def SettledInv (sm : StateManagerS) : Prop :=
  sm.settled = if sm.state.isTerminal then 1 else 0

/-! ## Concrete instances used by the witnesses and counterexamples -/

/-- A non-terminal registry entry (fresh FSM in `pending`). -/
def c9ActiveSM : StateManagerS := initSM "a" "c1" "m1" 0 120000

/-- A terminal registry entry whose last transition happened at t=100. -/
def c9OldSM : StateManagerS :=
  { initSM "b" "c1" "m2" 0 120000 with
    state := SMState.error
    previousState := some SMState.pending
    stateHistory := [⟨SMState.pending, 0, "initialized", none⟩,
                     ⟨SMState.error, 100, "boom", some []⟩]
    settled := 1
    timeoutArmed := false }

/-- A demo registry for the cleanup sweep. -/
def c9Reg : List (String × StateManagerS) :=
  [("a", c9ActiveSM), ("b", c9OldSM)]

/-- The store the C1 witness starts from: one active conversation, no
messages, empty cache and log. -/
def c1Store : DBJS.JStore :=
  ⟨⟨[⟨"c1", "claude-code", none, 0, 0, "active"⟩], [], []⟩, [], []⟩

/-- The message the C1 witness expects all three calls to return. -/
def c1Msg : DBMessage := ⟨"m1", "c1", "user", "hi", 5⟩

/-- A database with one active conversation and no messages. -/
def c3db0 : DB :=
  { conversations := [⟨"c1", "claude-code", none, 0, 0, "active"⟩]
    messages := []
    sessions := [] }

/-- The first message appended by the C3 counterexample. -/
def c3msgA : DBMessage := ⟨"msg-a", "c1", "user", "a", 1000⟩

/-- The second message appended by the C3 counterexample, at the same
clock reading. -/
def c3msgB : DBMessage := ⟨"msg-b", "c1", "user", "b", 1000⟩

/-- The database after the first append of the C3 counterexample. -/
def c3db1 : DB := { c3db0 with messages := [c3msgA] }

/-- A database with one active conversation, no messages, and one
session referencing a conversation id that does not exist. -/
def c7db : DB :=
  { conversations := [⟨"c1", "claude-code", none, 0, 0, "active"⟩]
    messages := []
    sessions := [⟨"s1", "ghost", "completed"⟩] }

/-- The SDK message stream of the C10 witness: two non-result messages
followed by a result carrying `pong`. -/
def c10msgs : List SdkMessage :=
  [⟨"system", none⟩, ⟨"assistant", some "ignored"⟩, ⟨"result", some "pong"⟩]

/-! ## Helper lemmas on the state machine -/

/-- Terminal states have an empty row in `VALID_TRANSITIONS`. -/
theorem isTerminal_validTransitions (s : SMState) (h : s.isTerminal = true) :
    validTransitions s = [] := by
  cases s <;> revert h <;> decide

/-- A state with an admissible outgoing transition is not terminal. -/
theorem mem_validTransitions_not_terminal {s t : SMState}
    (h : t ∈ validTransitions s) : s.isTerminal = false := by
  cases s <;> first
    | rfl
    | exact absurd h (by simp [validTransitions])

/-- Any `transition` call from a terminal state throws the
invalid-transition error and leaves the instance untouched. -/
theorem transitionRun_terminal (sm : StateManagerS) (c : TCall)
    (ht : sm.state.isTerminal = true) :
    transitionRun sm c = (sm, some (invalidMsg sm.state c.target)) := by
  have hnil := isTerminal_validTransitions sm.state ht
  simp [transitionRun, hnil]

/-- C4: when the requested target state is not in the legal transition
set of the current state, `transition` fails with the
invalid-transition error and mutates nothing: the returned instance is
the argument itself, so the state, the history and the data bag are
all unchanged. -/
theorem transition_invalid_atomic (sm : StateManagerS) (c : TCall)
    (h : c.target ∉ validTransitions sm.state) :
    transitionRun sm c = (sm, some (invalidMsg sm.state c.target)) := by
  simp [transitionRun, h]

/-- Witness for C4: the spec's scenario 6 — `transition(completed)` on a
fresh FSM in `pending` fails and leaves the instance unchanged. -/
theorem transition_invalid_atomic_witness :
    SMState.completed ∉ validTransitions SMState.pending
    ∧ transitionRun (initSM "s1" "c1" "m1" 0 120000)
        { now := 1, target := SMState.completed }
      = (initSM "s1" "c1" "m1" 0 120000,
         some (invalidMsg SMState.pending SMState.completed)) :=
  ⟨by decide,
   transition_invalid_atomic (initSM "s1" "c1" "m1" 0 120000)
     { now := 1, target := SMState.completed } (by decide)⟩

/-- C2: the watchdog firing on a fresh FSM still in `pending` does not
transition to `timeout` — `VALID_TRANSITIONS['pending']` lists only
`acquiring_acp` and `cancelled`, so the watchdog callback's
`transition(TIMEOUT, ...)` throws the invalid-transition error, while
from every other non-terminal state the same transition is legal. -/
theorem watchdog_pending_invalid_transition :
    (validTransitions SMState.pending).contains SMState.timeout = false
    ∧ watchdogFire (initSM "s1" "c1" "m1" 0 120000) 120000
        = (initSM "s1" "c1" "m1" 0 120000,
           some (invalidMsg SMState.pending SMState.timeout))
    ∧ (validTransitions SMState.acquiring_acp).contains SMState.timeout = true
    ∧ (validTransitions SMState.acp_acquired).contains SMState.timeout = true
    ∧ (validTransitions SMState.sending_prompt).contains SMState.timeout = true
    ∧ (validTransitions SMState.processing).contains SMState.timeout = true := by
  refine ⟨by decide, ?_, by decide, by decide, by decide, by decide⟩
  decide

/-! ## Completion settles exactly once (C5) -/

/-- A `transition` call preserves the settle-count invariant. -/
theorem transitionRun_settledInv (sm : StateManagerS) (c : TCall)
    (h : SettledInv sm) : SettledInv (transitionRun sm c).1 := by
  obtain ⟨cnow, ctgt, crsn, cdet, cpat⟩ := c
  by_cases hmem : ctgt ∈ validTransitions sm.state
  · have hnt : sm.state.isTerminal = false :=
      mem_validTransitions_not_terminal hmem
    have h0 : sm.settled = 0 := by simpa [SettledInv, hnt] using h
    cases ctgt <;>
      simp [transitionRun, hmem, SettledInv, SMState.isTerminal, h0, hnt]
  · simpa [transitionRun, hmem] using h

/-- A watchdog fire preserves the settle-count invariant. -/
theorem watchdogFire_settledInv (sm : StateManagerS) (t : Int)
    (h : SettledInv sm) : SettledInv (watchdogFire sm t).1 := by
  by_cases ht : sm.state.isTerminal = true
  · simpa [watchdogFire, ht] using h
  · have ht2 : sm.state.isTerminal = false := by
      cases hb : sm.state.isTerminal
      · rfl
      · exact absurd hb ht
    simp only [watchdogFire, ht2, Bool.false_eq_true, if_false]
    exact transitionRun_settledInv sm _ h

/-- Every action sequence preserves the settle-count invariant. -/
theorem runActions_settledInv (acts : List SMAction) (sm : StateManagerS)
    (h : SettledInv sm) : SettledInv (runActions sm acts) := by
  induction acts generalizing sm with
  | nil => exact h
  | cons a rest ih =>
      cases a with
      | call c => exact ih _ (transitionRun_settledInv sm c h)
      | watchdog t => exact ih _ (watchdogFire_settledInv sm t h)

/-- C5: after any sequence of `transition` calls and watchdog fires on
a freshly constructed FSM, the completion promise has been settled
exactly once when the FSM is terminal and zero times otherwise, and
once terminal every further `transition` call fails with the
invalid-transition error leaving the instance unchanged. -/
theorem terminal_absorbing_settles_once (sid cid mid : String)
    (t0 tms : Int) (acts : List SMAction) :
    (runActions (initSM sid cid mid t0 tms) acts).settled
      = (if (runActions (initSM sid cid mid t0 tms) acts).state.isTerminal
         then 1 else 0)
    ∧ ((runActions (initSM sid cid mid t0 tms) acts).state.isTerminal = true →
        ∀ c : TCall,
          transitionRun (runActions (initSM sid cid mid t0 tms) acts) c
            = (runActions (initSM sid cid mid t0 tms) acts,
               some (invalidMsg
                 (runActions (initSM sid cid mid t0 tms) acts).state
                 c.target))) := by
  refine ⟨?_, ?_⟩
  · exact runActions_settledInv acts _ (by simp [SettledInv, initSM, SMState.isTerminal])
  · intro ht c
    exact transitionRun_terminal _ c ht

/-- Witness for C5: the run `pending → acquiring_acp`, then the
watchdog fires (a legal `timeout` transition there): the promise is
settled exactly once and a subsequent `transition(completed)` attempt
fails without mutating the FSM. -/
theorem terminal_absorbing_settles_once_witness :
    (runActions (initSM "s1" "c1" "m1" 0 120000)
        [SMAction.call { now := 1, target := SMState.acquiring_acp },
         SMAction.watchdog 120000]).settled
      = (if (runActions (initSM "s1" "c1" "m1" 0 120000)
              [SMAction.call { now := 1, target := SMState.acquiring_acp },
               SMAction.watchdog 120000]).state.isTerminal
         then 1 else 0)
    ∧ transitionRun
        (runActions (initSM "s1" "c1" "m1" 0 120000)
          [SMAction.call { now := 1, target := SMState.acquiring_acp },
           SMAction.watchdog 120000])
        { now := 120001, target := SMState.completed }
      = (runActions (initSM "s1" "c1" "m1" 0 120000)
           [SMAction.call { now := 1, target := SMState.acquiring_acp },
            SMAction.watchdog 120000],
         some (invalidMsg
           (runActions (initSM "s1" "c1" "m1" 0 120000)
             [SMAction.call { now := 1, target := SMState.acquiring_acp },
              SMAction.watchdog 120000]).state
           SMState.completed)) :=
  ⟨(terminal_absorbing_settles_once "s1" "c1" "m1" 0 120000
      [SMAction.call { now := 1, target := SMState.acquiring_acp },
       SMAction.watchdog 120000]).1,
   (terminal_absorbing_settles_once "s1" "c1" "m1" 0 120000
      [SMAction.call { now := 1, target := SMState.acquiring_acp },
       SMAction.watchdog 120000]).2 (by decide)
     { now := 120001, target := SMState.completed }⟩

/-! ## Registry cleanup (C9) -/

/-- C9: the cleanup sweep keeps an entry exactly when it was in the
registry and is not (terminal with a last transition older than
`ttl`); every surviving entry is the unchanged original pair. -/
theorem cleanup_removes_exactly (reg : List (String × StateManagerS))
    (now ttl : Int) (sid : String) (sm : StateManagerS) (t : Int)
    (hlast : lastTransitionTs sm = some t) :
    (sid, sm) ∈ cleanup reg now ttl ↔
      ((sid, sm) ∈ reg ∧ (sm.state.isTerminal = true → now - t ≤ ttl)) := by
  rw [cleanup, List.mem_filter]
  constructor
  · rintro ⟨hmem, hkeep⟩
    refine ⟨hmem, fun hterm => ?_⟩
    simp only [shouldRemove, hlast, hterm, Bool.not_eq_true', Bool.and_eq_false_iff] at hkeep
    rcases hkeep with h | h
    · exact absurd h (by simp)
    · simpa [not_lt] using of_decide_eq_false h
  · rintro ⟨hmem, hfresh⟩
    refine ⟨hmem, ?_⟩
    simp only [shouldRemove, hlast, Bool.not_eq_true']
    by_cases hterm : sm.state.isTerminal = true
    · simp [hterm, decide_eq_false_iff_not, not_lt, hfresh hterm]
    · have ht2 : sm.state.isTerminal = false := by
        cases hb : sm.state.isTerminal
        · rfl
        · exact absurd hb hterm
      simp [ht2]

/-- Witness for C9: in the demo registry swept at `now = 4000000` with
the default 1 h ttl, the old terminal entry is characterised by the
sweep condition (and is in fact removed, being 3999900 ms old). -/
theorem cleanup_removes_exactly_witness :
    lastTransitionTs c9OldSM = some 100
    ∧ (((("b", c9OldSM) ∈ cleanup c9Reg 4000000 3600000)) ↔
        ((("b", c9OldSM) ∈ c9Reg)
          ∧ (c9OldSM.state.isTerminal = true →
               (4000000 : Int) - 100 ≤ 3600000))) :=
  ⟨by decide,
   cleanup_removes_exactly c9Reg 4000000 3600000 "b" c9OldSM 100 (by decide)⟩

/-! ## Idempotent append (C1) -/

namespace DBJS

/-- A non-empty key whose cached record is unexpired returns the cached
message verbatim, leaving the store untouched. -/
theorem createMessage_cached (st : JStore) (now : Int)
    (newId cid role content k : String) (m : AgentGui.DBMessage)
    (hk : k ≠ "") (hhit : getIdempotencyKey st now k = some m) :
    createMessage st now newId cid role content (some k) = .ok (st, m) := by
  have hk2 : (k != "") = true := by simpa [bne_iff_ne] using hk
  simp [createMessage, hk2, hhit]

/-- On a cache miss with an existing conversation, one message row, one
`message.created` event and one idempotency record are written. -/
theorem createMessage_fresh (st : JStore) (now : Int)
    (newId cid role content k : String)
    (hk : k ≠ "") (hmiss : getIdempotencyKey st now k = none)
    (hconv : (AgentGui.getConversation st.db cid).isSome = true) :
    createMessage st now newId cid role content (some k) =
      .ok (⟨{ st.db with
               messages := st.db.messages ++ [⟨newId, cid, role, content, now⟩] },
            (k, ⟨⟨newId, cid, role, content, now⟩, now, idemTTL⟩) :: st.idem,
            st.events ++ [("message.created", cid, newId, now)]⟩,
          ⟨newId, cid, role, content, now⟩) := by
  have hk2 : (k != "") = true := by simpa [bne_iff_ne] using hk
  obtain ⟨conv, hcv⟩ := Option.isSome_iff_exists.mp hconv
  simp [createMessage, hk2, hmiss, hcv]

/-- Looking up the key just written hits, as long as the lookup happens
within the record's TTL. -/
theorem getIdempotencyKey_cons (db : AgentGui.DB)
    (tail : List (String × IdemRecord))
    (evs : List (String × String × String × Int)) (k : String)
    (m : AgentGui.DBMessage) (t0 t : Int) (htl : t - t0 ≤ idemTTL) :
    getIdempotencyKey ⟨db, (k, ⟨m, t0, idemTTL⟩) :: tail, evs⟩ t k = some m := by
  have hnotgt : ¬(t - t0 > idemTTL) := not_lt.mpr htl
  simp [getIdempotencyKey, List.find?_cons_of_pos, hnotgt]

/-- A run of calls that all hit the cache returns the cached message
every time and never changes the store. -/
theorem createSeq_cached (cid role content k : String)
    (m : AgentGui.DBMessage) (calls : List (Int × String)) (st : JStore)
    (hk : k ≠ "")
    (hhit : ∀ p ∈ calls, getIdempotencyKey st p.1 k = some m) :
    createSeq st cid role content (some k) calls
      = (st, List.replicate calls.length (.ok m)) := by
  induction calls with
  | nil => rfl
  | cons p rest ih =>
      obtain ⟨t, id⟩ := p
      have h1 := hhit (t, id) (List.mem_cons_self _ _)
      rw [createSeq, createMessage_cached st t id cid role content k m hk h1]
      simp [ih (fun q hq => hhit q (List.mem_cons_of_mem _ hq)),
        List.replicate_succ]

/-- C1: any number of user-message appends with the same non-empty
idempotency key within the 24-hour TTL create exactly one message row
and exactly one `message.created` event, and every call returns the
very message created by the first call; calls after the first leave
the store untouched.  (Modelled from the spec: the implementing
`database.js` is not part of the source tree.) -/
theorem idempotent_append_exactly_once (st0 : JStore)
    (cid content k : String) (t0 : Int) (id0 : String)
    (rest : List (Int × String))
    (hconv : (AgentGui.getConversation st0.db cid).isSome = true)
    (hk : k ≠ "")
    (hmiss : getIdempotencyKey st0 t0 k = none)
    (httl : ∀ p ∈ rest, p.1 - t0 ≤ idemTTL) :
    (createSeq st0 cid "user" content (some k) ((t0, id0) :: rest)).1.db.messages
        = st0.db.messages ++ [⟨id0, cid, "user", content, t0⟩]
    ∧ (createSeq st0 cid "user" content (some k) ((t0, id0) :: rest)).1.events
        = st0.events ++ [("message.created", cid, id0, t0)]
    ∧ (createSeq st0 cid "user" content (some k) ((t0, id0) :: rest)).2
        = List.replicate (rest.length + 1)
            (Except.ok ⟨id0, cid, "user", content, t0⟩) := by
  have hfirst := createMessage_fresh st0 t0 id0 cid "user" content k hk hmiss hconv
  have hrest : ∀ p ∈ rest,
      getIdempotencyKey
        ⟨{ st0.db with
             messages := st0.db.messages ++ [⟨id0, cid, "user", content, t0⟩] },
          (k, ⟨⟨id0, cid, "user", content, t0⟩, t0, idemTTL⟩) :: st0.idem,
          st0.events ++ [("message.created", cid, id0, t0)]⟩ p.1 k
        = some ⟨id0, cid, "user", content, t0⟩ := by
    intro p hp
    exact getIdempotencyKey_cons _ _ _ _ _ _ _ (httl p hp)
  rw [createSeq]
  simp only [hfirst,
    createSeq_cached cid "user" content k ⟨id0, cid, "user", content, t0⟩ rest _
      hk hrest]
  refine ⟨by simp, by simp, by simp [List.replicate_succ]⟩

end DBJS

/-- Witness for C1: three appends with key `k-1` at t = 5, 6, 7 create
one row and one event and all return the same message. -/
theorem idempotent_append_exactly_once_witness :
    (DBJS.createSeq c1Store "c1" "user" "hi" (some "k-1")
        [(5, "m1"), (6, "m2"), (7, "m3")]).1.db.messages = [c1Msg]
    ∧ (DBJS.createSeq c1Store "c1" "user" "hi" (some "k-1")
        [(5, "m1"), (6, "m2"), (7, "m3")]).1.events
        = [("message.created", "c1", "m1", 5)]
    ∧ (DBJS.createSeq c1Store "c1" "user" "hi" (some "k-1")
        [(5, "m1"), (6, "m2"), (7, "m3")]).2
        = List.replicate 3 (Except.ok c1Msg) := by
  have h := DBJS.idempotent_append_exactly_once c1Store "c1" "hi" "k-1" 5 "m1"
    [(6, "m2"), (7, "m3")] (by decide) (by decide) (by decide) (by decide)
  exact ⟨by simpa [c1Store, c1Msg] using h.1,
         by simpa [c1Store] using h.2.1,
         by simpa [c1Msg] using h.2.2⟩

/-! ## Message timestamps (C3) -/

/-- Counterexample to C3: two appends to the same conversation while
the wall clock reads 1000 both succeed with `created_at = 1000` — the
second timestamp is not bumped, so the sequence of `createdAt` values
is not strictly increasing. -/
theorem createMessage_no_bump_counterexample :
    createMessage c3db0 1000 "msg-a" "c1" "user" "a" = .ok (c3db1, c3msgA)
    ∧ createMessage c3db1 1000 "msg-b" "c1" "user" "b"
        = .ok ({ c3db1 with messages := [c3msgA, c3msgB] }, c3msgB)
    ∧ c3msgA.created_at = c3msgB.created_at
    ∧ (decide (c3msgA.created_at < c3msgB.created_at)) = false := by
  refine ⟨rfl, rfl, by decide, by decide⟩

/-- C3 (amended): `DatabaseService.createMessage` stores the observed
`Date.now()` verbatim as `created_at` and appends rows in call order,
so successive messages carry non-decreasing — not strictly
increasing — timestamps whenever the wall clock is non-decreasing,
with equal values when the clock has not advanced. -/
theorem createMessage_timestamp_exact (db : DB) (t1 t2 : Int)
    (id1 id2 cid role ct1 ct2 : String) (db1 db2 : DB) (m1 m2 : DBMessage)
    (h1 : createMessage db t1 id1 cid role ct1 = .ok (db1, m1))
    (h2 : createMessage db1 t2 id2 cid role ct2 = .ok (db2, m2)) :
    m1.created_at = t1 ∧ m2.created_at = t2
    ∧ db2.messages = db.messages ++ [m1, m2]
    ∧ (t1 ≤ t2 → m1.created_at ≤ m2.created_at) := by
  unfold createMessage at h1 h2
  split at h1
  · exact absurd h1 (by simp)
  · split at h1
    · exact absurd h1 (by simp)
    · simp only [Except.ok.injEq, Prod.mk.injEq] at h1
      obtain ⟨hdb1, hm1⟩ := h1
      split at h2
      · exact absurd h2 (by simp)
      · split at h2
        · exact absurd h2 (by simp)
        · simp only [Except.ok.injEq, Prod.mk.injEq] at h2
          obtain ⟨hdb2, hm2⟩ := h2
          subst hdb1 hm1 hdb2 hm2
          refine ⟨rfl, rfl, by simp, fun h => h⟩

/-- Witness for C3 (amended): the two concrete same-tick appends of the
counterexample database satisfy the amended statement, with equal
timestamps. -/
theorem createMessage_timestamp_exact_witness :
    c3msgA.created_at = 1000 ∧ c3msgB.created_at = 1000
    ∧ ({ c3db1 with messages := [c3msgA, c3msgB] } : DB).messages
        = c3db0.messages ++ [c3msgA, c3msgB]
    ∧ ((1000 : Int) ≤ 1000 → c3msgA.created_at ≤ c3msgB.created_at) := by
  have h := createMessage_timestamp_exact c3db0 1000 1000 "msg-a" "msg-b" "c1"
    "user" "a" "b" c3db1 { c3db1 with messages := [c3msgA, c3msgB] }
    c3msgA c3msgB rfl rfl
  exact h

/-! ## Session statuses (C6) -/

/-- Counterexample to C6: `'timeout'` is not among the strings the
`SessionStatus` union of `types.ts` can carry, so a stored session
cannot record a watchdog expiry as `status = timeout`. -/
theorem sessionStatus_no_timeout_counterexample :
    ((allSessionStatuses.map SessionStatus.str).contains "timeout") = false
    ∧ allSessionStatuses.map SessionStatus.str
        = ["pending", "processing", "completed", "error", "cancelled"] := by
  refine ⟨by decide, by decide⟩

/-- C6 (amended): every value of the stored `SessionStatus` type is one
of `pending`, `processing`, `completed`, `error`, `cancelled` — the
`timeout` status of the claim is not representable — and the five
alternatives enumerate the type. -/
theorem sessionStatus_values (s : SessionStatus) :
    SessionStatus.str s
      ∈ ["pending", "processing", "completed", "error", "cancelled"]
    ∧ s ∈ allSessionStatuses := by
  cases s <;> exact ⟨by decide, by decide⟩

/-! ## Integrity checking (C7) -/

/-- Counterexample to C7: a store holding a session with a dangling
conversation reference still passes `validateIntegrity` with
`valid = true` and no violations — the source checks only orphaned
messages and duplicate conversation ids. -/
theorem validateIntegrity_ignores_sessions :
    danglingSessionCount c7db = 1
    ∧ validateIntegrity c7db = ⟨true, []⟩ := by
  refine ⟨by decide, by decide⟩

/-- C7 (amended): `validateIntegrity` returns `valid` exactly when the
violation list is empty, and the list is empty exactly when there is
no orphaned message and no duplicated conversation id; session
references are not examined. -/
theorem validateIntegrity_spec (db : DB) :
    (validateIntegrity db).valid = (validateIntegrity db).errors.isEmpty
    ∧ (validateIntegrity db).errors.isEmpty
        = ((orphanedMessageCount db == 0) && (duplicateConversationIdCount db == 0)) := by
  constructor
  · rfl
  · rcases Nat.eq_zero_or_pos (orphanedMessageCount db) with h1 | h1 <;>
      rcases Nat.eq_zero_or_pos (duplicateConversationIdCount db) with h2 | h2
    · simp [validateIntegrity, h1, h2]
    · simp [validateIntegrity, h1, h2, Nat.pos_iff_ne_zero.mp h2]
    · simp [validateIntegrity, h1, h2, Nat.pos_iff_ne_zero.mp h1]
    · simp [validateIntegrity, h1, h2, Nat.pos_iff_ne_zero.mp h1,
        Nat.pos_iff_ne_zero.mp h2]

/-! ## Retry backoff (C8) -/

/-- C8: the automatic retry delay of `conversationSyncMachine`'s error
state is the constant 1000 ms — the `after` key is evaluated once with
the literal exponent 0 — whereas the delay the claim (and the
machine's own comment and `logRetry` message) prescribes before
attempt 3 is 2000 ms; `SyncService.handleSyncError` does double the
delay but caps it at its default `maxRetryDelay` of 30000 ms, not
16000 ms. -/
theorem machineRetryDelay_constant_bug :
    machineErrorRetryDelay = 1000
    ∧ specRetryDelay 2 = 2000
    ∧ ((machineErrorRetryDelay == specRetryDelay 2) = false)
    ∧ logRetryDelay 1 = 2000
    ∧ handleSyncErrorDelay 1000 30000 2 = 2000
    ∧ handleSyncErrorDelay 1000 30000 5 = 16000
    ∧ handleSyncErrorDelay 1000 30000 6 = 30000
    ∧ specRetryDelay 6 = 16000 := by
  refine ⟨by decide, by decide, by decide, by decide, by decide, by decide,
    by decide, by decide⟩

/-! ## SDK streaming callback (C10) -/

/-- C10: over any SDK message stream, `sendPrompt` invokes the
`onUpdate` callback at most once; the single chunk, when present, is
exactly the non-empty final response text, and a run whose final
result is empty produces no chunk at all. -/
theorem sendPrompt_single_chunk (hasCallback : Bool)
    (msgs : List SdkMessage) :
    (sendPromptChunks hasCallback msgs).1.length ≤ 1
    ∧ (∀ c ∈ (sendPromptChunks hasCallback msgs).1,
        c = (sendPromptChunks hasCallback msgs).2
        ∧ (sendPromptChunks hasCallback msgs).2 ≠ "")
    ∧ ((sendPromptChunks hasCallback msgs).2 = ""
        → (sendPromptChunks hasCallback msgs).1 = []) := by
  induction msgs with
  | nil => exact ⟨by simp [sendPromptChunks], by simp [sendPromptChunks],
      fun _ => by simp [sendPromptChunks]⟩
  | cons m rest ih =>
      by_cases ht : (m.type == "result") = true
      · by_cases hc : (hasCallback && m.resultText != "") = true
        · have hne : m.resultText ≠ "" := by
            have := (Bool.and_eq_true _ _).mp hc
            simpa [bne_iff_ne] using this.2
          refine ⟨?_, ?_, ?_⟩ <;>
            simp [sendPromptChunks, ht, hc, hne]
        · refine ⟨?_, ?_, ?_⟩ <;>
            simp [sendPromptChunks, ht, hc]
      · simpa [sendPromptChunks, ht] using ih

/-- Witness for C10: on the demo stream with a registered callback the
single emitted chunk is the whole final response `pong`. -/
theorem sendPrompt_single_chunk_witness :
    (sendPromptChunks true c10msgs).1.length ≤ 1
    ∧ ("pong" ∈ (sendPromptChunks true c10msgs).1)
    ∧ ("pong" = (sendPromptChunks true c10msgs).2
        ∧ (sendPromptChunks true c10msgs).2 ≠ "") :=
  ⟨(sendPrompt_single_chunk true c10msgs).1,
   by decide,
   (sendPrompt_single_chunk true c10msgs).2.1 "pong" (by decide)⟩

end AgentGui
